import Mathlib

/-!
Verification development for the ChromaBiz backend (`backend/server.py`).

The file shallowly embeds the quota-tracking, response-extraction,
fallback-catalog, prompt-building and orchestration logic of the source
file, and proves (or refutes) the frozen claims about it.

Conventions of the embedding:
* Python strings are embedded as `List Char` (`Str`).
* Python `datetime` instants are embedded as natural numbers (a point on
  a discrete timeline); `timedelta(days=1)` is the constant `one_day`.
  Only the ordering and addition of instants matter to the source logic.
* Python exceptions are embedded as the `Except PyErr` monad; the source
  `except json.JSONDecodeError` clause corresponds to handling the
  `PyErr.jsonDecodeError` value, every other error value propagates.
* `uuid.uuid4()` is embedded as an (arbitrary, injective-if-desired)
  generator `gen : Nat → Str` consumed in construction order; freshness
  and uniqueness of real UUIDs become hypotheses on `gen`.
* `json.loads` is embedded by an executable recursive-descent parser
  producing the `Json` inductive; numbers are modelled as integers (no
  input considered in this development contains fractional numbers),
  and `\u` escapes are not modelled.  A failed parse is `none`, the
  embedding of `json.JSONDecodeError`.
-/

namespace ChromaBiz

/-- Python strings are embedded as lists of characters. -/
abbrev Str := List Char

/-- Literal text helper: the character list of a Lean string literal. -/
def chars (s : String) : Str := s.data

/-! ### JSON values (the result type of Python `json.loads`) -/

/-- A parsed JSON document, as produced by Python `json.loads`.
Numbers are modelled as integers (see the file header). -/
inductive Json where
  | null
  | bool (b : Bool)
  | num (n : Int)
  | str (s : Str)
  | arr (elems : List Json)
  | obj (members : List (Str × Json))

/-! ### A model of Python `json.loads`

A fuel-indexed recursive-descent parser.  `pyJsonLoads` returns `none`
exactly where `json.loads` raises `json.JSONDecodeError` (up to the
modelling restrictions stated in the file header: integer numerals only,
no `\u` escapes, duplicate object keys resolved to the first binding). -/

/-- JSON insignificant whitespace. -/
def isJsonWs (c : Char) : Bool :=
  c == ' ' || c == '\t' || c == '\n' || c == '\r'

/-- Skip insignificant whitespace. -/
def skipWs (s : Str) : Str := s.dropWhile isJsonWs

/-- The table of two-character JSON escapes: escape letter paired with
the character it denotes (`\u` escapes are not modelled). -/
def escTable : List (Char × Char) :=
  [('"', '"'), ('\\', '\\'), ('/', '/'), ('b', Char.ofNat 8),
   ('f', Char.ofNat 12), ('n', Char.ofNat 10), ('r', Char.ofNat 13),
   ('t', Char.ofNat 9)]

/-- Translation of a JSON escape character via the table. -/
def escChar (c : Char) : Option Char :=
  (escTable.find? (fun pr => pr.1 == c)).map Prod.snd

/-- Parse the body of a JSON string (the opening quote already
consumed); returns the decoded text and the rest of the input. -/
def parseStringBody : Str → Option (Str × Str)
  | [] => none
  | '"' :: rest => some ([], rest)
  | '\\' :: rest =>
    match rest with
    | [] => none
    | e :: rest2 =>
      match escChar e with
      | some c => (parseStringBody rest2).map (fun p => (c :: p.1, p.2))
      | none => none
  | c :: rest => (parseStringBody rest).map (fun p => (c :: p.1, p.2))

/-- Numeric value of a digit run. -/
def digitsVal (ds : Str) : Nat :=
  ds.foldl (fun a c => 10 * a + (c.toNat - 48)) 0

/-- Parse an unsigned integer numeral; rejects fractional/exponent forms
(not modelled, see file header). -/
def parseNatNum (s : Str) : Option (Nat × Str) :=
  let ds := s.takeWhile Char.isDigit
  let rest := s.drop ds.length
  if ds.isEmpty then none
  else
    match rest with
    | '.' :: _ => none
    | 'e' :: _ => none
    | 'E' :: _ => none
    | _ => some (digitsVal ds, rest)

/-- Parse a (possibly negated) integer numeral. -/
def parseIntNum (s : Str) : Option (Int × Str) :=
  match s with
  | '-' :: rest => (parseNatNum rest).map (fun p => (-(p.1 : Int), p.2))
  | _ => (parseNatNum s).map (fun p => ((p.1 : Int), p.2))

mutual

/-- Parse a single JSON value (fuel-indexed). -/
def parseValue : Nat → Str → Option (Json × Str)
  | 0, _ => none
  | fuel + 1, s =>
    match skipWs s with
    | [] => none
    | c :: rest =>
      if c == '[' then parseArrayRest fuel rest
      else if c == Char.ofNat 123 then parseObjRest fuel rest
      else if c == '"' then
        (parseStringBody rest).map (fun p => (Json.str p.1, p.2))
      else if c == 't' then
        if (chars "rue").isPrefixOf rest then some (Json.bool true, rest.drop 3)
        else none
      else if c == 'f' then
        if (chars "alse").isPrefixOf rest then some (Json.bool false, rest.drop 4)
        else none
      else if c == 'n' then
        if (chars "ull").isPrefixOf rest then some (Json.null, rest.drop 3)
        else none
      else (parseIntNum (c :: rest)).map (fun p => (Json.num p.1, p.2))

/-- Parse the contents of an array after the opening bracket. -/
def parseArrayRest : Nat → Str → Option (Json × Str)
  | 0, _ => none
  | fuel + 1, s =>
    match skipWs s with
    | ']' :: r => some (Json.arr [], r)
    | _ => (parseElems fuel s).map (fun p => (Json.arr p.1, p.2))

/-- Parse `value (, value)* ]`. -/
def parseElems : Nat → Str → Option (List Json × Str)
  | 0, _ => none
  | fuel + 1, s =>
    match parseValue fuel s with
    | none => none
    | some (v, r) =>
      match skipWs r with
      | ',' :: r2 =>
        match parseElems fuel r2 with
        | none => none
        | some (vs, r3) => some (v :: vs, r3)
      | ']' :: r2 => some ([v], r2)
      | _ => none

/-- Parse the contents of an object after the opening brace. -/
def parseObjRest : Nat → Str → Option (Json × Str)
  | 0, _ => none
  | fuel + 1, s =>
    match skipWs s with
    | c :: r =>
      if c == Char.ofNat 125 then some (Json.obj [], r)
      else (parseMembers fuel s).map (fun p => (Json.obj p.1, p.2))
    | [] => none

/-- Parse `"key" : value (, "key" : value)* closing-brace`. -/
def parseMembers : Nat → Str → Option (List (Str × Json) × Str)
  | 0, _ => none
  | fuel + 1, s =>
    match skipWs s with
    | '"' :: r =>
      match parseStringBody r with
      | none => none
      | some (k, r1) =>
        match skipWs r1 with
        | ':' :: r2 =>
          match parseValue fuel r2 with
          | none => none
          | some (v, r3) =>
            match skipWs r3 with
            | ',' :: r4 =>
              match parseMembers fuel r4 with
              | none => none
              | some (ms, r5) => some ((k, v) :: ms, r5)
            | c :: r4 =>
              if c == Char.ofNat 125 then some ([(k, v)], r4) else none
            | [] => none
        | _ => none
    | _ => none

end

/-- Model of Python `json.loads`: parse one JSON document and require
that only whitespace follows it; `none` models `json.JSONDecodeError`. -/
def pyJsonLoads (s : Str) : Option Json :=
  match parseValue (4 * s.length + 8) s with
  | some (v, r) => if (skipWs r).isEmpty then some v else none
  | none => none

/-! ### Models of the two `re.search` calls of `parse_palette_response`

`re.search(r'\[[\s\S]*\]', text)`: the leftmost match of this greedy
pattern starts at the first `[` of the text and ends at the last `]`;
a match exists iff the first `[` precedes the last `]`.

`re.search(r'\{[\s\S]*"palettes"[\s\S]*\}', text)`: the leftmost match
starts at the first brace `i` that is followed (strictly after `i`) by
an occurrence of the ten-character token `"palettes"` which itself is
followed, at least ten characters later, by a closing brace; by
greediness the match ends at the last closing brace of the text. -/

/-- Index of the first occurrence of `c` in `s`. -/
def firstIdxOf (c : Char) (s : Str) : Option Nat := s.findIdx? (· == c)

/-- Index of the last occurrence of `c` in `s`. -/
def lastIdxOf (c : Char) (s : Str) : Option Nat :=
  (List.range s.length).foldl
    (fun acc i => if s[i]? == some c then some i else acc) none

/-- The substring matched by `re.search(r'\[[\s\S]*\]', s)`, if any. -/
def findArrayMatch (s : Str) : Option Str :=
  match firstIdxOf '[' s, lastIdxOf ']' s with
  | some i, some j => if i < j then some ((s.drop i).take (j - i + 1)) else none
  | _, _ => none

/-- The ten-character literal token `"palettes"` (quotes included). -/
def palettesTok : Str := chars "\"palettes\""

/-- Does the token `"palettes"` occur in `s` starting at index `p`? -/
def palettesTokAt (s : Str) (p : Nat) : Bool :=
  palettesTok.isPrefixOf (s.drop p)

/-- Can a match of the object pattern start at index `i`? -/
def objMatchFrom (s : Str) (i : Nat) : Bool :=
  (List.range (s.length + 1)).any fun p =>
    decide (i < p) && palettesTokAt s p &&
      ((List.range s.length).any fun k =>
        decide (p + 10 ≤ k) && (s[k]? == some (Char.ofNat 125)))

/-- The substring matched by
`re.search(r'\{[\s\S]*"palettes"[\s\S]*\}', s)`, if any. -/
def findObjMatch (s : Str) : Option Str :=
  match (List.range s.length).find? (fun i =>
      (s[i]? == some (Char.ofNat 123)) && objMatchFrom s i) with
  | some i =>
    match lastIdxOf (Char.ofNat 125) s with
    | some k => some ((s.drop i).take (k - i + 1))
    | none => none
  | none => none

/-! ### Python exceptions and attribute access, as used by the source -/

/-- The exception classes that the extraction code can raise.
`jsonDecodeError` is the only one the source catches
(`except json.JSONDecodeError`); `attributeError` models calling
`.get` on a non-dict, `typeError` models iterating a non-iterable, and
`validationError` models a pydantic field-type failure. -/
inductive PyErr where
  | jsonDecodeError
  | attributeError
  | typeError
  | validationError
deriving DecidableEq

/-- Model of `x.get(key, default)`: raises `AttributeError` unless `x`
is a dict; returns the first binding of `key`, else the default. -/
def assoc (key : Str) : List (Str × Json) → Option Json
  | [] => none
  | (k, v) :: rest => if k = key then some v else assoc key rest

/-- Model of `x.get(key, default)` on an arbitrary value. -/
def pyGet (j : Json) (key : Str) (dflt : Json) : Except PyErr Json :=
  match j with
  | .obj ms => .ok ((assoc key ms).getD dflt)
  | _ => .error .attributeError

/-- Model of `for x in v`: lists iterate over their elements, strings
over their characters, dicts over their keys; every other value raises
`TypeError`. -/
def pyIter (j : Json) : Except PyErr (List Json) :=
  match j with
  | .arr xs => .ok xs
  | .str cs => .ok (cs.map (fun c => Json.str [c]))
  | .obj ms => .ok (ms.map (fun kv => Json.str kv.1))
  | _ => .error .typeError

/-- Model of pydantic validating a `str`-typed field: any non-string
value raises a validation error. -/
def asStr (j : Json) : Except PyErr Str :=
  match j with
  | .str s => .ok s
  | _ => .error .validationError

/-! ### The data model (`Color`, `Palette`) -/

/-- `class Color(BaseModel)`: hex, name, usage. -/
structure Color where
  hex : Str
  name : Str
  usage : Str
deriving DecidableEq

/-- `class Palette(BaseModel)`: the `id` field is default-generated by
`uuid.uuid4()` (embedded by the generator `gen`, see file header). -/
structure Palette where
  id : Str
  name : Str
  description : Str
  colors : List Color
  psychology : Str
deriving DecidableEq

/-! ### `parse_palette_response` -/

/-- One iteration of the inner color loop of `parse_palette_response`:
`Color(hex=color.get("hex", "#000000"), name=color.get("name",
"Unknown"), usage=color.get("usage", "General"))`. -/
def processColor (c : Json) : Except PyErr Color :=
  match pyGet c (chars "hex") (.str (chars "#000000")),
        pyGet c (chars "name") (.str (chars "Unknown")),
        pyGet c (chars "usage") (.str (chars "General")) with
  | .error e, _, _ => .error e
  | _, .error e, _ => .error e
  | _, _, .error e => .error e
  | .ok hj, .ok nj, .ok uj =>
    match asStr hj, asStr nj, asStr uj with
    | .error e, _, _ => .error e
    | _, .error e, _ => .error e
    | _, _, .error e => .error e
    | .ok h, .ok n, .ok u => .ok ⟨h, n, u⟩

/-- The inner color loop of `parse_palette_response`. -/
def processColors : List Json → Except PyErr (List Color)
  | [] => .ok []
  | c :: rest =>
    match processColor c with
    | .error e => .error e
    | .ok col =>
      match processColors rest with
      | .error e => .error e
      | .ok cols => .ok (col :: cols)

/-- One iteration of the item loop of `parse_palette_response`: build
the colors, then `Palette(name=item.get("name", "Palette"),
description=item.get("description", ""), colors=colors,
psychology=item.get("psychology", ""))` with a fresh `id`. -/
def processItem (gen : Nat → Str) (idx : Nat) (item : Json) :
    Except PyErr Palette :=
  match pyGet item (chars "colors") (.arr []) with
  | .error e => .error e
  | .ok colorsJ =>
    match pyIter colorsJ with
    | .error e => .error e
    | .ok colorJs =>
      match processColors colorJs with
      | .error e => .error e
      | .ok colors =>
        match pyGet item (chars "name") (.str (chars "Palette")),
              pyGet item (chars "description") (.str []),
              pyGet item (chars "psychology") (.str []) with
        | .error e, _, _ => .error e
        | _, .error e, _ => .error e
        | _, _, .error e => .error e
        | .ok nj, .ok dj, .ok pj =>
          match asStr nj, asStr dj, asStr pj with
          | .error e, _, _ => .error e
          | _, .error e, _ => .error e
          | _, _, .error e => .error e
          | .ok n, .ok d, .ok p => .ok ⟨gen idx, n, d, colors, p⟩

/-- The item loop of `parse_palette_response`; `idx` numbers the
`uuid4` draws in construction order. -/
def processItems (gen : Nat → Str) (idx : Nat) :
    List Json → Except PyErr (List Palette)
  | [] => .ok []
  | item :: rest =>
    match processItem gen idx item with
    | .error e => .error e
    | .ok p =>
      match processItems gen (idx + 1) rest with
      | .error e => .error e
      | .ok ps => .ok (p :: ps)

/-- The second (object-shaped) extraction attempt of
`parse_palette_response`, and the shared `return palettes` fallthrough
returning the empty accumulator. -/
def parseObjAttempt (gen : Nat → Str) (s : Str) :
    Except PyErr (List Palette) :=
  match findObjMatch s with
  | some m =>
    match pyJsonLoads m with
    | some data =>
      match pyGet data (chars "palettes") (.arr []) with
      | .error e => .error e
      | .ok palJ =>
        match pyIter palJ with
        | .error e => .error e
        | .ok items => processItems gen 0 items
    | none => .ok []          -- JSONDecodeError swallowed; final return
  | none => .ok []

/-- `parse_palette_response(response_text)`.  The first attempt looks
for a bracketed JSON array; on `json.JSONDecodeError` (only) it falls
through to the object-shaped attempt.  Any other exception raised while
interpreting parsed data propagates (`except json.JSONDecodeError`). -/
def parse_palette_response (gen : Nat → Str) (s : Str) :
    Except PyErr (List Palette) :=
  match findArrayMatch s with
  | some m =>
    match pyJsonLoads m with
    | some data =>
      match pyIter data with
      | .error e => .error e
      | .ok items => processItems gen 0 items
    | none => parseObjAttempt gen s   -- JSONDecodeError swallowed
  | none => parseObjAttempt gen s

/-! ### Rate limiting (`rate_limits`, `check_rate_limit`,
`get_remaining_limits`) -/

/-- `timedelta(days=1)` on the discrete timeline. -/
def one_day : Nat := 86400

/-- One value of the `rate_limits` dict:
`{"generations": _, "revisions": _, "reset_time": _}`.  Counters are
integers, exactly as in Python. -/
structure Entry where
  generations : Int
  revisions : Int
  reset_time : Nat
deriving DecidableEq

/-- The in-memory `rate_limits` dict, embedded as an association list
keyed by client IP. -/
abbrev RLMap := List (Str × Entry)

/-- Dict lookup (`rate_limits[ip]` / `ip in rate_limits`). -/
def rlookup (ip : Str) : RLMap → Option Entry
  | [] => none
  | (k, v) :: rest => if k = ip then some v else rlookup ip rest

/-- Dict store (`rate_limits[ip] = ...`, or in-place mutation of the
entry): replace the first binding of `ip`, else append. -/
def upsert (ip : Str) (v : Entry) : RLMap → RLMap
  | [] => [(ip, v)]
  | (k, w) :: rest =>
    if k = ip then (k, v) :: rest else (k, w) :: upsert ip v rest

/-- `check_rate_limit(ip, limit_type)`: returns `(allowed, remaining)`
and the updated `rate_limits` dict. -/
def check_rate_limit (m : RLMap) (ip : Str) (limit_type : Str)
    (now : Nat) : (Bool × Int) × RLMap :=
  -- if ip not in rate_limits: create the record with caps (1, 3)
  let m1 := match rlookup ip m with
    | none => upsert ip ⟨1, 3, now + one_day⟩ m
    | some _ => m
  let u := (rlookup ip m1).getD ⟨1, 3, now + one_day⟩
  -- reset if past reset time (now >= reset_time)
  let u1 := if u.reset_time ≤ now then ⟨1, 3, now + one_day⟩ else u
  let m2 := if u.reset_time ≤ now then upsert ip u1 m1 else m1
  if limit_type = chars "generation" then
    if u1.generations ≤ 0 then ((false, 0), m2)
    else ((true, u1.generations - 1),
          upsert ip ⟨u1.generations - 1, u1.revisions, u1.reset_time⟩ m2)
  else if limit_type = chars "revision" then
    if u1.revisions ≤ 0 then ((false, 0), m2)
    else ((true, u1.revisions - 1),
          upsert ip ⟨u1.generations, u1.revisions - 1, u1.reset_time⟩ m2)
  else ((false, 0), m2)

/-- `class RateLimitStatus`; `reset_time` keeps its timeline value (the
source serializes it with `isoformat()`, a bijective rendering that the
claims do not inspect). -/
structure RateLimitStatus where
  generations_remaining : Int
  revisions_remaining : Int
  reset_time : Nat
deriving DecidableEq

/-- `get_remaining_limits(ip)`: a read of `rate_limits` with no
assignment anywhere in its body. -/
def get_remaining_limits (m : RLMap) (ip : Str) (now : Nat) :
    RateLimitStatus :=
  match rlookup ip m with
  | none => ⟨1, 3, now + one_day⟩
  | some u =>
    if u.reset_time ≤ now then ⟨1, 3, now + one_day⟩
    else ⟨u.generations, u.revisions, u.reset_time⟩

/-- The `GET /api/rate-limit` route: it calls `get_remaining_limits`
and performs no write, so the stored dict it leaves behind is the one
it received. -/
def get_rate_limit_status (m : RLMap) (ip : Str) (now : Nat) :
    RateLimitStatus × RLMap :=
  (get_remaining_limits m ip now, m)

/-! ### Prompt building (`generate_palettes`, lines 276-305) -/

/-- `class PaletteGenerationRequest`.  `brand_values` and `competitors`
are `Optional[str] = ""`; `None` and `""` are both falsy in the
source's `if data.brand_values` conditionals and are jointly embedded
as the empty character list. -/
structure PaletteGenerationRequest where
  business_name : Str
  business_category : Str
  target_country : Str
  age_groups : List Str
  target_gender : Str
  brand_values : Str
  competitors : Str

/-- `", ".join(data.age_groups)`. -/
def joinCommaSpace (xs : List Str) : Str :=
  List.intercalate (chars ", ") xs

/-- The generation prompt f-string, line by line.  The two conditional
entries embed `f"- Brand Values: {...}" if data.brand_values else ""`
and its competitors twin: when the field is falsy the entry is the
empty line the f-string leaves behind. -/
def promptLines (data : PaletteGenerationRequest) : List Str :=
  [ chars "Generate 5 professional color palettes for a " ++
      data.business_name ++ chars " business in the " ++
      data.business_category ++ chars " industry.",
    [],
    chars "Target Audience:",
    chars "- Country: " ++ data.target_country,
    chars "- Age Groups: " ++ joinCommaSpace data.age_groups,
    chars "- Gender: " ++ data.target_gender,
    (if data.brand_values = [] then []
     else chars "- Brand Values: " ++ data.brand_values),
    (if data.competitors = [] then []
     else chars "- Competitors to differentiate from: " ++ data.competitors),
    [],
    chars "For each palette, provide exactly 5 colors. Consider:",
    chars "1. Cultural color associations for " ++ data.target_country,
    chars "2. Age-appropriate appeal for " ++ joinCommaSpace data.age_groups,
    chars "3. Gender preferences if applicable",
    chars "4. Industry standards and competitor differentiation",
    [],
    chars "Return ONLY a JSON array with this exact structure (no other text):",
    chars "[",
    chars "  \x7b",
    chars "    \"name\": \"Palette Name\",",
    chars "    \"description\": \"Brief description\",",
    chars "    \"psychology\": \"Color psychology explanation\",",
    chars "    \"colors\": [",
    chars "      \x7b\"hex\": \"#XXXXXX\", \"name\": \"Color Name\", \"usage\": \"Primary/Secondary/Accent/Background/Text\"\x7d,",
    chars "      \x7b\"hex\": \"#XXXXXX\", \"name\": \"Color Name\", \"usage\": \"Primary/Secondary/Accent/Background/Text\"\x7d,",
    chars "      \x7b\"hex\": \"#XXXXXX\", \"name\": \"Color Name\", \"usage\": \"Primary/Secondary/Accent/Background/Text\"\x7d,",
    chars "      \x7b\"hex\": \"#XXXXXX\", \"name\": \"Color Name\", \"usage\": \"Primary/Secondary/Accent/Background/Text\"\x7d,",
    chars "      \x7b\"hex\": \"#XXXXXX\", \"name\": \"Color Name\", \"usage\": \"Primary/Secondary/Accent/Background/Text\"\x7d",
    chars "    ]",
    chars "  \x7d",
    chars "]" ]

/-- The full prompt text: the f-string is its lines joined by
newlines. -/
def buildGenerationPrompt (data : PaletteGenerationRequest) : Str :=
  List.intercalate [Char.ofNat 10] (promptLines data)

/-! ### Fallback catalog (`generate_fallback_palettes`) -/

/-- The "Warm Appetite" curated palette (Food & Beverage). -/
def warm_appetite (gen : Nat → Str) : Palette :=
  ⟨gen 0, chars "Warm Appetite",
   chars "Warm, inviting colors that stimulate appetite",
   [⟨chars "#D4380D", chars "Tomato Red", chars "Primary"⟩,
    ⟨chars "#FA8C16", chars "Orange Zest", chars "Secondary"⟩,
    ⟨chars "#FADB14", chars "Golden Yellow", chars "Accent"⟩,
    ⟨chars "#F5F0E6", chars "Cream", chars "Background"⟩,
    ⟨chars "#3D3D3D", chars "Espresso", chars "Text"⟩],
   chars "Red and orange stimulate hunger, while earth tones create comfort"⟩

/-- The "Digital Trust" curated palette (Technology). -/
def digital_trust (gen : Nat → Str) : Palette :=
  ⟨gen 1, chars "Digital Trust",
   chars "Modern, trustworthy tech palette",
   [⟨chars "#1890FF", chars "Tech Blue", chars "Primary"⟩,
    ⟨chars "#13C2C2", chars "Cyan", chars "Secondary"⟩,
    ⟨chars "#722ED1", chars "Purple", chars "Accent"⟩,
    ⟨chars "#F0F5FF", chars "Ice White", chars "Background"⟩,
    ⟨chars "#262626", chars "Charcoal", chars "Text"⟩],
   chars "Blue conveys trust and reliability, common in tech branding"⟩

/-- Generic default palette 1. -/
def professional_classic (gen : Nat → Str) : Palette :=
  ⟨gen 2, chars "Professional Classic",
   chars "Timeless professional palette",
   [⟨chars "#2F54EB", chars "Royal Blue", chars "Primary"⟩,
    ⟨chars "#597EF7", chars "Light Blue", chars "Secondary"⟩,
    ⟨chars "#F5222D", chars "Action Red", chars "Accent"⟩,
    ⟨chars "#FAFAFA", chars "Off White", chars "Background"⟩,
    ⟨chars "#1F1F1F", chars "Near Black", chars "Text"⟩],
   chars "Blue builds trust, neutral tones provide balance"⟩

/-- Generic default palette 2. -/
def modern_minimal (gen : Nat → Str) : Palette :=
  ⟨gen 3, chars "Modern Minimal",
   chars "Clean, contemporary design",
   [⟨chars "#000000", chars "Pure Black", chars "Primary"⟩,
    ⟨chars "#595959", chars "Gray", chars "Secondary"⟩,
    ⟨chars "#EB2F96", chars "Magenta", chars "Accent"⟩,
    ⟨chars "#FFFFFF", chars "White", chars "Background"⟩,
    ⟨chars "#262626", chars "Dark Gray", chars "Text"⟩],
   chars "Monochrome with accent creates sophisticated modern feel"⟩

/-- Generic default palette 3. -/
def nature_inspired (gen : Nat → Str) : Palette :=
  ⟨gen 4, chars "Nature Inspired",
   chars "Organic, earthy tones",
   [⟨chars "#52C41A", chars "Fresh Green", chars "Primary"⟩,
    ⟨chars "#389E0D", chars "Forest", chars "Secondary"⟩,
    ⟨chars "#FAAD14", chars "Sunflower", chars "Accent"⟩,
    ⟨chars "#F6FFED", chars "Mint Cream", chars "Background"⟩,
    ⟨chars "#135200", chars "Deep Green", chars "Text"⟩],
   chars "Green represents growth and harmony, connecting to nature"⟩

/-- Generic default palette 4. -/
def warm_sunset (gen : Nat → Str) : Palette :=
  ⟨gen 5, chars "Warm Sunset",
   chars "Energetic and inviting",
   [⟨chars "#FA541C", chars "Sunset Orange", chars "Primary"⟩,
    ⟨chars "#FAAD14", chars "Gold", chars "Secondary"⟩,
    ⟨chars "#F5222D", chars "Coral Red", chars "Accent"⟩,
    ⟨chars "#FFF7E6", chars "Warm White", chars "Background"⟩,
    ⟨chars "#AD2102", chars "Deep Orange", chars "Text"⟩],
   chars "Warm colors evoke energy, passion, and friendliness"⟩

/-- Generic default palette 5. -/
def cool_ocean (gen : Nat → Str) : Palette :=
  ⟨gen 6, chars "Cool Ocean",
   chars "Calm and refreshing",
   [⟨chars "#1890FF", chars "Ocean Blue", chars "Primary"⟩,
    ⟨chars "#13C2C2", chars "Teal", chars "Secondary"⟩,
    ⟨chars "#722ED1", chars "Purple Accent", chars "Accent"⟩,
    ⟨chars "#E6F7FF", chars "Sky White", chars "Background"⟩,
    ⟨chars "#003A8C", chars "Deep Blue", chars "Text"⟩],
   chars "Cool tones promote relaxation and trust"⟩

/-- The five-entry generic default list. -/
def default_palettes (gen : Nat → Str) : List Palette :=
  [professional_classic gen, modern_minimal gen, nature_inspired gen,
   warm_sunset gen, cool_ocean gen]

/-- `generate_fallback_palettes(category)`: the
`fallback_palettes.get(category, default_palettes)` dict lookup with
exact string keys.  The `uuid4` draws are numbered in the construction
order of the source's literals. -/
def generate_fallback_palettes (gen : Nat → Str) (category : Str) :
    List Palette :=
  if category = chars "Food & Beverage" then [warm_appetite gen]
  else if category = chars "Technology" then [digital_trust gen]
  else default_palettes gen

/-! ### Orchestration (`generate_palettes`, `chat_with_ai`)

The outbound Gemini call is the unreliable external collaborator; its
outcome is an input of the embedding: it raises, or returns a response
without a `text` attribute, or returns generated text. -/

/-- Outcome of `model.generate_content(...)`. -/
inductive ProviderResult where
  | raises
  | noText
  | text (s : Str)

/-- `class PaletteGenerationResponse`. -/
structure PaletteGenerationResponse where
  palettes : List Palette
  remaining_generations : Int
deriving DecidableEq

/-- `POST /api/generate-palettes` (`generate_palettes`).  Errors are
`HTTPException` status codes.  The route builds
`buildGenerationPrompt data` and sends it to the provider, whose
outcome is the parameter `pr`.  Inside the `try`, any exception —
a provider failure or an uncaught extraction exception — is absorbed
by `except Exception` into the fallback catalog; an empty extraction
result also falls back (`if not palettes`). -/
def generate_palettes (gen : Nat → Str) (m : RLMap) (ip : Str)
    (now : Nat) (data : PaletteGenerationRequest)
    (apiKey : Option Str) (pr : ProviderResult) :
    Except Nat PaletteGenerationResponse × RLMap :=
  let checked := check_rate_limit m ip (chars "generation") now
  let allowed := checked.1.1
  let remaining := checked.1.2
  let m2 := checked.2
  if !allowed then (.error 429, m2)
  else
    match apiKey with
    | none => (.error 500, m2)
    | some _ =>
      let palettes : List Palette :=
        match pr with
        | .raises => generate_fallback_palettes gen data.business_category
        | .noText =>          -- palettes = [] then `if not palettes`
          generate_fallback_palettes gen data.business_category
        | .text s =>
          match parse_palette_response gen s with
          | .error _ =>       -- caught by `except Exception`
            generate_fallback_palettes gen data.business_category
          | .ok [] => generate_fallback_palettes gen data.business_category
          | .ok ps => ps
      (.ok ⟨palettes, remaining⟩, m2)

/-- `class ChatResponse`. -/
structure ChatOutcome where
  response : Str
  remaining_revisions : Int
deriving DecidableEq

/-- `POST /api/chat` (`chat_with_ai`).  The refinement prompt
construction has no observable effect on the claimed outputs and is
embedded as opaque; the provider outcome is again an input.  A provider
failure is surfaced as `HTTPException 500` — no fallback text — and the
quota consumption of step 1 is not rolled back. -/
def chat_with_ai (m : RLMap) (ip : Str) (now : Nat)
    (apiKey : Option Str) (pr : ProviderResult) :
    Except Nat ChatOutcome × RLMap :=
  let checked := check_rate_limit m ip (chars "revision") now
  let allowed := checked.1.1
  let remaining := checked.1.2
  let m2 := checked.2
  if !allowed then (.error 429, m2)
  else
    match apiKey with
    | none => (.error 500, m2)
    | some _ =>
      match pr with
      | .raises => (.error 500, m2)
      | .noText => (.ok ⟨chars "Unable to generate response", remaining⟩, m2)
      | .text s => (.ok ⟨s, remaining⟩, m2)

/-! ### Operation sequences over the quota store (for the frame and
invariant claims) -/

/-- One quota-store operation: a consuming check (either action string)
or a pure status read. -/
inductive QuotaOp where
  | check (ip limit_type : Str) (now : Nat)
  | statusRead (ip : Str) (now : Nat)

/-- Effect of one operation on the stored `rate_limits` dict. -/
def quotaStep (m : RLMap) : QuotaOp → RLMap
  | .check ip t now => (check_rate_limit m ip t now).2
  | .statusRead ip now => (get_rate_limit_status m ip now).2

/-- Effect of a sequence of operations. -/
def runOps (m : RLMap) (ops : List QuotaOp) : RLMap :=
  ops.foldl quotaStep m

/-- The per-entry invariant: counters within `[0, cap]`. -/
def entry_ok (e : Entry) : Prop :=
  0 ≤ e.generations ∧ e.generations ≤ 1 ∧
  0 ≤ e.revisions ∧ e.revisions ≤ 3

instance (e : Entry) : Decidable (entry_ok e) := by
  unfold entry_ok; infer_instance

/-- The store invariant: every stored record satisfies `entry_ok`. -/
def quota_inv (m : RLMap) : Prop := ∀ p ∈ m, entry_ok p.2

instance (m : RLMap) : Decidable (quota_inv m) := by
  unfold quota_inv; infer_instance

/-- Decidable conjunction used by the safety claim about extraction:
every parse attempt the input admits fails to decode. -/
def jsonAttemptsFail (s : Str) : Bool :=
  (match findArrayMatch s with
   | some m => (pyJsonLoads m).isNone
   | none => true) &&
  (match findObjMatch s with
   | some m => (pyJsonLoads m).isNone
   | none => true)

/-! ### Concrete inputs used by the witness theorems -/

/-- A concrete uuid supply: `u0, u1, u2, ...`. -/
def gen0 : Nat → Str := fun n => chars "u" ++ (Nat.toDigits 10 n)

/-- A constant uuid supply used where only membership in the supply's
range matters. -/
def genC : Nat → Str := fun _ => chars "uuid-a"

/-- A concrete generation request for witness scenarios. -/
def req0 : PaletteGenerationRequest :=
  ⟨chars "Cafe Aroma", chars "Food & Beverage", chars "United States",
   [chars "25-35"], chars "All Genders", [], []⟩

/-- A concrete request with brand values set and competitors empty. -/
def req9 : PaletteGenerationRequest :=
  ⟨chars "Shop", chars "Retail", chars "France", [chars "18-25"],
   chars "All Genders", chars "bold, modern", []⟩

/-! ## Helper lemmas about the quota store -/

theorem rlookup_upsert_self (ip : Str) (v : Entry) (m : RLMap) :
    rlookup ip (upsert ip v m) = some v := by
  induction m with
  | nil => simp [upsert, rlookup]
  | cons p rest ih =>
    by_cases h : p.1 = ip
    · simp [upsert, rlookup, h]
    · simp [upsert, rlookup, h, ih]

theorem upsert_upsert (ip : Str) (v1 v2 : Entry) (m : RLMap) :
    upsert ip v2 (upsert ip v1 m) = upsert ip v2 m := by
  induction m with
  | nil => simp [upsert]
  | cons p rest ih =>
    by_cases h : p.1 = ip
    · simp [upsert, h]
    · simp [upsert, h, ih]

theorem mem_upsert {p : Str × Entry} {ip : Str} {v : Entry} {m : RLMap}
    (h : p ∈ upsert ip v m) : p = (ip, v) ∨ p ∈ m := by
  induction m with
  | nil => simp [upsert] at h; left; simp [h]
  | cons q rest ih =>
    by_cases hq : q.1 = ip
    · simp [upsert, hq] at h
      rcases h with h | h
      · left; exact h
      · right; simp [h]
    · simp [upsert, hq] at h
      rcases h with h | h
      · right; simp [h]
      · rcases ih h with h2 | h2
        · left; exact h2
        · right; simp [h2]

theorem rlookup_mem : ∀ {m : RLMap} {ip : Str} {e : Entry},
    rlookup ip m = some e → (ip, e) ∈ m := by
  intro m
  induction m with
  | nil => intro ip e h; simp [rlookup] at h
  | cons q rest ih =>
    intro ip e h
    obtain ⟨k, w⟩ := q
    by_cases hq : k = ip
    · simp [rlookup, hq] at h
      subst hq
      subst h
      exact List.mem_cons_self _ _
    · simp [rlookup, hq] at h
      right
      exact ih h

theorem quota_inv_upsert {m : RLMap} {ip : Str} {v : Entry}
    (h : quota_inv m) (hv : entry_ok v) : quota_inv (upsert ip v m) := by
  intro p hp
  rcases mem_upsert hp with rfl | hp2
  · exact hv
  · exact h p hp2

/-- `check_rate_limit` preserves the counter bounds of every stored
record, whatever the client, action string and instant. -/
theorem check_preserves_inv (m : RLMap) (ip t : Str) (now : Nat)
    (h : quota_inv m) : quota_inv (check_rate_limit m ip t now).2 := by
  have eok13 : ∀ r, entry_ok (⟨1, 3, r⟩ : Entry) := fun r => by simp [entry_ok]
  cases hq : rlookup ip m with
  | none =>
    have hrs : ¬ (now + one_day ≤ now) := by simp [one_day]
    simp only [check_rate_limit, hq, rlookup_upsert_self, Option.getD_some,
      hrs, if_false]
    split
    · norm_num
      exact quota_inv_upsert (quota_inv_upsert h (eok13 _)) (by simp [entry_ok])
    · split
      · norm_num
        exact quota_inv_upsert (quota_inv_upsert h (eok13 _)) (by simp [entry_ok])
      · exact quota_inv_upsert h (eok13 _)
  | some e =>
    have hek : entry_ok e := h (ip, e) (rlookup_mem hq)
    by_cases hrt : e.reset_time ≤ now
    · simp only [check_rate_limit, hq, Option.getD_some, hrt, if_true]
      split
      · norm_num
        exact quota_inv_upsert (quota_inv_upsert h (eok13 _)) (by simp [entry_ok])
      · split
        · norm_num
          exact quota_inv_upsert (quota_inv_upsert h (eok13 _)) (by simp [entry_ok])
        · exact quota_inv_upsert h (eok13 _)
    · simp only [check_rate_limit, hq, Option.getD_some, hrt, if_false]
      split
      · split
        · exact h
        · next hg =>
            refine quota_inv_upsert h ?_
            unfold entry_ok at hek ⊢
            simp only
            omega
      · split
        · split
          · exact h
          · next hr =>
              refine quota_inv_upsert h ?_
              unfold entry_ok at hek ⊢
              simp only
              omega
        · exact h

/-! ## The claims -/

/-- Claim C2: `check_rate_limit` satisfies, for every client and both
action strings: an unseen client gets a record with caps `(1, 3)` and
deadline `now + 24h` created before the request is evaluated (so the
call is allowed and the relevant counter ends at `cap - 1`); when
`now ≥ resetAt` the counters are reset to caps and the deadline to
`now + 24h` before evaluation; a zero relevant counter yields
`(false, 0)` with the store untouched; otherwise the relevant counter
is decremented and `(true, newValue)` returned. -/
theorem c2_check_rate_limit (m : RLMap) (ip : Str) (now : Nat) :
    (rlookup ip m = none →
      check_rate_limit m ip (chars "generation") now
        = ((true, 0), upsert ip ⟨0, 3, now + one_day⟩ m) ∧
      check_rate_limit m ip (chars "revision") now
        = ((true, 2), upsert ip ⟨1, 2, now + one_day⟩ m)) ∧
    (∀ e, rlookup ip m = some e → e.reset_time ≤ now →
      check_rate_limit m ip (chars "generation") now
        = ((true, 0), upsert ip ⟨0, 3, now + one_day⟩ m) ∧
      check_rate_limit m ip (chars "revision") now
        = ((true, 2), upsert ip ⟨1, 2, now + one_day⟩ m)) ∧
    (∀ e, rlookup ip m = some e → now < e.reset_time →
      (e.generations ≤ 0 →
        check_rate_limit m ip (chars "generation") now = ((false, 0), m)) ∧
      (0 < e.generations →
        check_rate_limit m ip (chars "generation") now
          = ((true, e.generations - 1),
             upsert ip ⟨e.generations - 1, e.revisions, e.reset_time⟩ m)) ∧
      (e.revisions ≤ 0 →
        check_rate_limit m ip (chars "revision") now = ((false, 0), m)) ∧
      (0 < e.revisions →
        check_rate_limit m ip (chars "revision") now
          = ((true, e.revisions - 1),
             upsert ip ⟨e.generations, e.revisions - 1, e.reset_time⟩ m))) := by
  have hne : chars "revision" ≠ chars "generation" := by decide
  refine ⟨?_, ?_, ?_⟩
  · intro h
    have hr : ¬ (now + one_day ≤ now) := by simp [one_day]
    constructor
    · simp [check_rate_limit, h, rlookup_upsert_self, upsert_upsert, hr]
    · simp [check_rate_limit, h, hne, rlookup_upsert_self, upsert_upsert, hr]
  · intro e h h2
    constructor
    · simp [check_rate_limit, h, h2, rlookup_upsert_self, upsert_upsert]
    · simp [check_rate_limit, h, h2, hne, rlookup_upsert_self, upsert_upsert]
  · intro e h h2
    have hr : ¬ (e.reset_time ≤ now) := by omega
    refine ⟨?_, ?_, ?_, ?_⟩
    · intro h3; simp [check_rate_limit, h, hr, h3]
    · intro h3
      have hg : ¬ (e.generations ≤ 0) := by omega
      simp [check_rate_limit, h, hr, hg]
    · intro h3; simp [check_rate_limit, h, hr, hne, h3]
    · intro h3
      have hv : ¬ (e.revisions ≤ 0) := by omega
      simp [check_rate_limit, h, hr, hne, hv]

/-- Witness for C2: each branch of the contract exercised on concrete
stores. -/
theorem c2_witness :
    check_rate_limit [] (chars "a") (chars "generation") 0
      = ((true, 0), upsert (chars "a") ⟨0, 3, 0 + one_day⟩ []) ∧
    check_rate_limit [(chars "b", ⟨1, 3, 5⟩)] (chars "b") (chars "generation") 5
      = ((true, 0), upsert (chars "b") ⟨0, 3, 5 + one_day⟩
          [(chars "b", ⟨1, 3, 5⟩)]) ∧
    check_rate_limit [(chars "c", ⟨0, 2, 50⟩)] (chars "c") (chars "generation") 7
      = ((false, 0), [(chars "c", ⟨0, 2, 50⟩)]) ∧
    check_rate_limit [(chars "c", ⟨0, 2, 50⟩)] (chars "c") (chars "revision") 7
      = ((true, 1), upsert (chars "c") ⟨0, 1, 50⟩ [(chars "c", ⟨0, 2, 50⟩)]) :=
  ⟨((c2_check_rate_limit [] (chars "a") 0).1 rfl).1,
   ((c2_check_rate_limit [(chars "b", ⟨1, 3, 5⟩)] (chars "b") 5).2.1
      ⟨1, 3, 5⟩ (by decide) (by decide)).1,
   (((c2_check_rate_limit [(chars "c", ⟨0, 2, 50⟩)] (chars "c") 7).2.2
      ⟨0, 2, 50⟩ (by decide) (by decide)).1 (by decide)),
   (((c2_check_rate_limit [(chars "c", ⟨0, 2, 50⟩)] (chars "c") 7).2.2
      ⟨0, 2, 50⟩ (by decide) (by decide)).2.2.2 (by decide))⟩

/-- Claim C3: the status read (`get_remaining_limits`, exposed by the
`/rate-limit` route) never mutates the stored quota map — a consuming
check after any status read behaves exactly as without it — and past
the reset deadline it reports the would-be-reset caps `(1, 3)` and the
would-be deadline without committing them. -/
theorem c3_status_pure (m : RLMap) (ip ip2 t : Str) (now now2 : Nat) :
    (get_rate_limit_status m ip now).2 = m ∧
    check_rate_limit (get_rate_limit_status m ip now).2 ip2 t now2
      = check_rate_limit m ip2 t now2 ∧
    (∀ e, rlookup ip m = some e → e.reset_time ≤ now →
      (get_remaining_limits m ip now).generations_remaining = 1 ∧
      (get_remaining_limits m ip now).revisions_remaining = 3 ∧
      (get_remaining_limits m ip now).reset_time = now + one_day ∧
      rlookup ip (get_rate_limit_status m ip now).2 = some e) := by
  refine ⟨rfl, rfl, ?_⟩
  intro e h h2
  simp [get_remaining_limits, get_rate_limit_status, h, h2]

/-- Witness for C3: a store whose record is past its deadline; the read
reports fresh caps yet leaves the stale record in place. -/
theorem c3_witness :
    (get_remaining_limits [(chars "c", ⟨0, 2, 50⟩)] (chars "c") 60).generations_remaining = 1 ∧
    (get_remaining_limits [(chars "c", ⟨0, 2, 50⟩)] (chars "c") 60).revisions_remaining = 3 ∧
    (get_remaining_limits [(chars "c", ⟨0, 2, 50⟩)] (chars "c") 60).reset_time = 60 + one_day ∧
    rlookup (chars "c")
        (get_rate_limit_status [(chars "c", ⟨0, 2, 50⟩)] (chars "c") 60).2
      = some ⟨0, 2, 50⟩ :=
  (c3_status_pure [(chars "c", ⟨0, 2, 50⟩)] (chars "c") (chars "c")
      (chars "generation") 60 60).2.2 ⟨0, 2, 50⟩ (by decide) (by decide)

/-- Claim C8: starting from any store satisfying the counter bounds
(in particular the empty one), every sequence of quota operations —
consuming checks and status reads at arbitrary clients, action strings
and instants — leaves every stored record with
`0 ≤ generations ≤ 1` and `0 ≤ revisions ≤ 3`. -/
theorem c8_invariant (ops : List QuotaOp) (m : RLMap)
    (h : quota_inv m) : quota_inv (runOps m ops) := by
  induction ops generalizing m with
  | nil => exact h
  | cons op rest ih =>
    refine ih _ ?_
    cases op with
    | check ip t now => exact check_preserves_inv m ip t now h
    | statusRead ip now => exact h

/-- Witness for C8: a concrete operation sequence from the empty
store. -/
theorem c8_witness :
    quota_inv (runOps []
      [QuotaOp.check (chars "a") (chars "generation") 0,
       QuotaOp.statusRead (chars "a") 1,
       QuotaOp.check (chars "a") (chars "revision") 2,
       QuotaOp.check (chars "a") (chars "generation") 3,
       QuotaOp.check (chars "a") (chars "generation") 100000]) :=
  c8_invariant _ [] (by decide)

/-- Claim C10: when the stored revision counter is positive (and the
window has not rolled over), a chat request whose provider call fails
still returns the 500 error with the revision counter already
decremented — the consumption of step 1 is not rolled back. -/
theorem c10_chat_consumes (m : RLMap) (ip : Str) (now : Nat) (e : Entry)
    (key : Str) (h : rlookup ip m = some e) (h2 : now < e.reset_time)
    (h3 : 0 < e.revisions) :
    chat_with_ai m ip now (some key) .raises
      = (.error 500, upsert ip ⟨e.generations, e.revisions - 1, e.reset_time⟩ m) ∧
    rlookup ip (chat_with_ai m ip now (some key) .raises).2
      = some ⟨e.generations, e.revisions - 1, e.reset_time⟩ := by
  have hr : ¬ (e.reset_time ≤ now) := by omega
  have hv : ¬ (e.revisions ≤ 0) := by omega
  have hne : chars "revision" ≠ chars "generation" := by decide
  constructor
  · simp [chat_with_ai, check_rate_limit, h, hr, hv, hne]
  · simp [chat_with_ai, check_rate_limit, h, hr, hv, hne,
      rlookup_upsert_self]

/-- Witness for C10: a failed chat call consuming one of two remaining
revisions. -/
theorem c10_witness :
    chat_with_ai [(chars "c", ⟨1, 2, 50⟩)] (chars "c") 7
        (some (chars "k")) .raises
      = (.error 500, upsert (chars "c") ⟨1, 1, 50⟩ [(chars "c", ⟨1, 2, 50⟩)]) ∧
    rlookup (chars "c")
        (chat_with_ai [(chars "c", ⟨1, 2, 50⟩)] (chars "c") 7
          (some (chars "k")) .raises).2
      = some ⟨1, 1, 50⟩ :=
  c10_chat_consumes [(chars "c", ⟨1, 2, 50⟩)] (chars "c") 7 ⟨1, 2, 50⟩
    (chars "k") (by decide) (by decide) (by decide)

/-! ## Helper lemmas about the extraction pipeline -/

theorem pyGet_error {j : Json} {k : Str} {d : Json} {e : PyErr}
    (h : pyGet j k d = .error e) : e = .attributeError := by
  cases j <;> simp [pyGet] at h <;> exact h.symm

theorem pyIter_error {j : Json} {e : PyErr}
    (h : pyIter j = .error e) : e = .typeError := by
  cases j <;> simp [pyIter] at h <;> exact h.symm

theorem asStr_error {j : Json} {e : PyErr}
    (h : asStr j = .error e) : e = .validationError := by
  cases j <;> simp [asStr] at h <;> exact h.symm

theorem processColor_no_jde (c : Json) :
    processColor c ≠ .error PyErr.jsonDecodeError := by
  unfold processColor
  split <;> try split
  all_goals intro hcon
  all_goals
    first
      | (injection hcon with h; subst h;
         first
           | exact absurd (pyGet_error (by assumption)) (by decide)
           | exact absurd (asStr_error (by assumption)) (by decide))
      | injection hcon

theorem processColors_no_jde (cs : List Json) :
    processColors cs ≠ .error PyErr.jsonDecodeError := by
  induction cs with
  | nil => simp [processColors]
  | cons c rest ih =>
    unfold processColors
    split <;> try split
    all_goals intro hcon
    · injection hcon with h
      exact processColor_no_jde c (by rw [(by assumption : processColor c = _), h])
    · injection hcon with h
      exact ih (by rw [(by assumption : processColors rest = _), h])
    · injection hcon

theorem processItem_no_jde (gen : Nat → Str) (idx : Nat) (item : Json) :
    processItem gen idx item ≠ .error PyErr.jsonDecodeError := by
  unfold processItem
  split <;> try (split <;> try (split <;> try (split <;> try split)))
  all_goals intro hcon
  all_goals
    first
      | (injection hcon with h; subst h;
         first
           | exact absurd (pyGet_error (by assumption)) (by decide)
           | exact absurd (pyIter_error (by assumption)) (by decide)
           | exact absurd (asStr_error (by assumption)) (by decide)
           | exact absurd (by assumption : processColors _ = _)
               (processColors_no_jde _))
      | injection hcon

theorem processItems_no_jde (gen : Nat → Str) (idx : Nat) (items : List Json) :
    processItems gen idx items ≠ .error PyErr.jsonDecodeError := by
  induction items generalizing idx with
  | nil => simp [processItems]
  | cons item rest ih =>
    unfold processItems
    split <;> try split
    all_goals intro hcon
    · injection hcon with h
      exact processItem_no_jde gen idx item
        (by rw [(by assumption : processItem gen idx item = _), h])
    · injection hcon with h
      exact ih (idx + 1)
        (by rw [(by assumption : processItems gen (idx + 1) rest = _), h])
    · injection hcon

theorem parseObjAttempt_no_jde (gen : Nat → Str) (s : Str) :
    parseObjAttempt gen s ≠ .error PyErr.jsonDecodeError := by
  unfold parseObjAttempt
  split
  · split
    · split
      · intro hcon
        injection hcon with h
        subst h
        exact absurd (pyGet_error (by assumption)) (by decide)
      · split
        · intro hcon
          injection hcon with h
          subst h
          exact absurd (pyIter_error (by assumption)) (by decide)
        · exact processItems_no_jde gen 0 _
    · simp
  · simp

theorem parse_no_jde (gen : Nat → Str) (s : Str) :
    parse_palette_response gen s ≠ .error PyErr.jsonDecodeError := by
  unfold parse_palette_response
  split
  · split
    · split
      · intro hcon
        injection hcon with h
        subst h
        exact absurd (pyIter_error (by assumption)) (by decide)
      · exact processItems_no_jde gen 0 _
    · exact parseObjAttempt_no_jde gen s
  · exact parseObjAttempt_no_jde gen s

theorem parseObjAttempt_fail (gen : Nat → Str) (s : Str)
    (h2 : (match findObjMatch s with
           | some m => (pyJsonLoads m).isNone
           | none => true) = true) :
    parseObjAttempt gen s = .ok [] := by
  unfold parseObjAttempt
  cases ho : findObjMatch s with
  | some m =>
    simp only [ho] at h2
    simp only [ho]
    cases hj : pyJsonLoads m with
    | some v => rw [hj] at h2; simp at h2
    | none => simp
  | none => simp

theorem processColor_fields {c : Json} {col : Color}
    (h : processColor c = .ok col) :
    ∃ hj nj uj,
      pyGet c (chars "hex") (.str (chars "#000000")) = .ok hj ∧
      pyGet c (chars "name") (.str (chars "Unknown")) = .ok nj ∧
      pyGet c (chars "usage") (.str (chars "General")) = .ok uj ∧
      asStr hj = .ok col.hex ∧ asStr nj = .ok col.name ∧
      asStr uj = .ok col.usage := by
  unfold processColor at h
  split at h <;> try exact Except.noConfusion h
  split at h <;> try exact Except.noConfusion h
  injection h with h2
  subst h2
  exact ⟨_, _, _, by assumption, by assumption, by assumption,
    by assumption, by assumption, by assumption⟩

theorem processItem_fields {gen : Nat → Str} {idx : Nat} {item : Json}
    {p : Palette} (h : processItem gen idx item = .ok p) :
    p.id = gen idx ∧
    ∃ colorsJ colorJs nj dj pj,
      pyGet item (chars "colors") (.arr []) = .ok colorsJ ∧
      pyIter colorsJ = .ok colorJs ∧
      processColors colorJs = .ok p.colors ∧
      pyGet item (chars "name") (.str (chars "Palette")) = .ok nj ∧
      pyGet item (chars "description") (.str []) = .ok dj ∧
      pyGet item (chars "psychology") (.str []) = .ok pj ∧
      asStr nj = .ok p.name ∧ asStr dj = .ok p.description ∧
      asStr pj = .ok p.psychology := by
  unfold processItem at h
  split at h <;> try exact Except.noConfusion h
  split at h <;> try exact Except.noConfusion h
  split at h <;> try exact Except.noConfusion h
  split at h <;> try exact Except.noConfusion h
  split at h <;> try exact Except.noConfusion h
  injection h with h2
  subst h2
  exact ⟨rfl, _, _, _, _, _, by assumption, by assumption, by assumption,
    by assumption, by assumption, by assumption, by assumption,
    by assumption, by assumption⟩

theorem processItems_ids (gen : Nat → Str) :
    ∀ (items : List Json) (idx : Nat) (l : List Palette),
      processItems gen idx items = .ok l →
      l.map Palette.id = (List.range' idx l.length).map gen := by
  intro items
  induction items with
  | nil =>
    intro idx l h
    simp [processItems] at h
    subst h
    simp
  | cons item rest ih =>
    intro idx l h
    unfold processItems at h
    split at h <;> try exact Except.noConfusion h
    split at h <;> try exact Except.noConfusion h
    injection h with h2
    subst h2
    have hid : _ = gen idx := (processItem_fields (by assumption)).1
    have htail := ih (idx + 1) _ (by assumption)
    simp only [List.map_cons, List.length_cons, List.range'_succ, hid, htail]

theorem parseObjAttempt_ids (gen : Nat → Str) (s : Str) (l : List Palette)
    (h : parseObjAttempt gen s = .ok l) :
    l.map Palette.id = (List.range' 0 l.length).map gen := by
  unfold parseObjAttempt at h
  split at h
  · split at h
    · split at h
      · exact Except.noConfusion h
      · split at h
        · exact Except.noConfusion h
        · exact processItems_ids gen _ 0 l h
    · injection h with h2; subst h2; simp
  · injection h with h2; subst h2; simp

/-! ## The extraction claims -/

/-- Claim C1, counterexample: the input `[1]` JSON-decodes to an array
whose element is not an object, and extraction raises `AttributeError`
(`(1).get` has no attribute `get`) instead of degrading to the empty
sequence — only `json.JSONDecodeError` is caught. -/
theorem c1_counterexample :
    parse_palette_response genC (chars "[1]") = .error PyErr.attributeError :=
  rfl

/-- Claim C1, amended: extraction never raises `json.JSONDecodeError`
to its caller — a failed JSON decode at any attempt is swallowed — and
when every admissible parse attempt fails to decode, the result
degrades to the empty sequence.  (Unexpectedly-shaped *successfully
decoded* JSON, such as an array of non-objects, raises an uncaught
exception instead; see the counterexample.) -/
theorem c1_amended_thm (gen : Nat → Str) (s : Str) :
    (∀ e, parse_palette_response gen s = .error e → e ≠ .jsonDecodeError) ∧
    (jsonAttemptsFail s = true → parse_palette_response gen s = .ok []) := by
  constructor
  · intro e h hj
    subst hj
    exact parse_no_jde gen s h
  · intro hf
    unfold jsonAttemptsFail at hf
    rw [Bool.and_eq_true] at hf
    obtain ⟨h1, h2⟩ := hf
    unfold parse_palette_response
    cases ha : findArrayMatch s with
    | some m =>
      simp only [ha] at h1
      simp only [ha]
      cases hj : pyJsonLoads m with
      | some v => rw [hj] at h1; simp at h1
      | none => simp only [hj]; exact parseObjAttempt_fail gen s h2
    | none => simp only [ha]; exact parseObjAttempt_fail gen s h2

/-- Witness for C1: an input whose bracketed substring is not JSON is
swallowed into the empty result, and the error the counterexample
exhibits is not the swallowed `jsonDecodeError` class. -/
theorem c1_witness :
    parse_palette_response gen0 (chars "no json here [oops") = .ok [] ∧
    PyErr.attributeError ≠ PyErr.jsonDecodeError :=
  ⟨(c1_amended_thm gen0 (chars "no json here [oops")).2 (by decide),
   (c1_amended_thm genC (chars "[1]")).1 PyErr.attributeError rfl⟩

/-- Claim C5, counterexample: a candidate palette whose `colors` field
is present but not iterable (the number `5`) raises `TypeError` from
the `for color in item.get("colors", [])` loop instead of normalizing
to an empty color sequence. -/
theorem c5_counterexample :
    parse_palette_response genC (chars "[\x7b\"colors\": 5\x7d]")
      = .error PyErr.typeError :=
  rfl

/-- Claim C5, amended: for every candidate palette object (either
extraction path feeds them to the same loop body), a missing `name`
normalizes to `"Palette"`, missing `description` and `psychology` to
the empty string, and a *missing* `colors` field to the empty color
sequence (a present but non-iterable `colors` value raises instead —
see the counterexample); for every color object, missing `hex`, `name`
and `usage` normalize to `"#000000"`, `"Unknown"` and `"General"`. -/
theorem c5_amended_thm :
    (∀ (gen : Nat → Str) (idx : Nat) (ms : List (Str × Json)) (p : Palette),
      processItem gen idx (.obj ms) = .ok p →
        (assoc (chars "name") ms = none → p.name = chars "Palette") ∧
        (assoc (chars "description") ms = none → p.description = []) ∧
        (assoc (chars "psychology") ms = none → p.psychology = []) ∧
        (assoc (chars "colors") ms = none → p.colors = [])) ∧
    (∀ (cms : List (Str × Json)) (c : Color),
      processColor (.obj cms) = .ok c →
        (assoc (chars "hex") cms = none → c.hex = chars "#000000") ∧
        (assoc (chars "name") cms = none → c.name = chars "Unknown") ∧
        (assoc (chars "usage") cms = none → c.usage = chars "General")) := by
  constructor
  · intro gen idx ms p h
    obtain ⟨hid, colorsJ, colorJs, nj, dj, pj, hc, hit, hcols, hn, hd, hp,
      han, had, hap⟩ := processItem_fields h
    refine ⟨?_, ?_, ?_, ?_⟩ <;> intro hnone
    · simp only [pyGet, hnone, Option.getD_none, Except.ok.injEq] at hn
      rw [← hn] at han
      simp only [asStr, Except.ok.injEq] at han
      exact han.symm
    · simp only [pyGet, hnone, Option.getD_none, Except.ok.injEq] at hd
      rw [← hd] at had
      simp only [asStr, Except.ok.injEq] at had
      exact had.symm
    · simp only [pyGet, hnone, Option.getD_none, Except.ok.injEq] at hp
      rw [← hp] at hap
      simp only [asStr, Except.ok.injEq] at hap
      exact hap.symm
    · simp only [pyGet, hnone, Option.getD_none, Except.ok.injEq] at hc
      rw [← hc] at hit
      simp only [pyIter, Except.ok.injEq] at hit
      rw [← hit] at hcols
      simp only [processColors, Except.ok.injEq] at hcols
      exact hcols.symm
  · intro cms c h
    obtain ⟨hj, nj, uj, hh, hn, hu, hah, han, hau⟩ := processColor_fields h
    refine ⟨?_, ?_, ?_⟩ <;> intro hnone
    · simp only [pyGet, hnone, Option.getD_none, Except.ok.injEq] at hh
      rw [← hh] at hah
      simp only [asStr, Except.ok.injEq] at hah
      exact hah.symm
    · simp only [pyGet, hnone, Option.getD_none, Except.ok.injEq] at hn
      rw [← hn] at han
      simp only [asStr, Except.ok.injEq] at han
      exact han.symm
    · simp only [pyGet, hnone, Option.getD_none, Except.ok.injEq] at hu
      rw [← hu] at hau
      simp only [asStr, Except.ok.injEq] at hau
      exact hau.symm

/-- Witness for C5: the empty palette object and the empty color object
receive every default. -/
theorem c5_witness :
    (⟨chars "uuid-a", chars "Palette", [], [], []⟩ : Palette).name
        = chars "Palette" ∧
    (⟨chars "uuid-a", chars "Palette", [], [], []⟩ : Palette).colors = [] ∧
    (⟨chars "#000000", chars "Unknown", chars "General"⟩ : Color).usage
        = chars "General" :=
  ⟨(c5_amended_thm.1 genC 0 [] ⟨chars "uuid-a", chars "Palette", [], [], []⟩
      rfl).1 rfl,
   (c5_amended_thm.1 genC 0 [] ⟨chars "uuid-a", chars "Palette", [], [], []⟩
      rfl).2.2.2 rfl,
   (c5_amended_thm.2 [] ⟨chars "#000000", chars "Unknown", chars "General"⟩
      rfl).2.2 rfl⟩

/-- Claim C6: every successfully extracted palette carries an
identifier drawn from the fresh uuid supply, in order — so extracted
ids are never taken from the model output: any value outside the
supply's range (in particular any id embedded in the input) differs
from every extracted id. -/
theorem c6_fresh_ids (gen : Nat → Str) (s : Str) (l : List Palette)
    (h : parse_palette_response gen s = .ok l) :
    l.map Palette.id = (List.range l.length).map gen ∧
    (∀ v, (∀ n, gen n ≠ v) → ∀ p ∈ l, p.id ≠ v) := by
  have hmap : l.map Palette.id = (List.range' 0 l.length).map gen := by
    unfold parse_palette_response at h
    split at h
    · split at h
      · split at h
        · exact Except.noConfusion h
        · exact processItems_ids gen _ 0 l h
      · exact parseObjAttempt_ids gen s l h
    · exact parseObjAttempt_ids gen s l h
  constructor
  · rw [List.range_eq_range']
    exact hmap
  · intro v hv p hp hid
    have hmem : p.id ∈ l.map Palette.id := List.mem_map_of_mem _ hp
    rw [hmap] at hmem
    obtain ⟨n, hn, hgen⟩ := List.mem_map.mp hmem
    exact hv n (by rw [hgen, hid])

/-- Witness for C6: an input carrying `"id": "zz"` yields one palette
whose id is the first supply value, not `"zz"`. -/
theorem c6_witness :
    ([⟨chars "uuid-a", chars "A", [], [], []⟩] : List Palette).map Palette.id
        = (List.range 1).map genC ∧
    (⟨chars "uuid-a", chars "A", [], [], []⟩ : Palette).id ≠ chars "zz" :=
  ⟨(c6_fresh_ids genC (chars "[\x7b\"id\": \"zz\", \"name\": \"A\"\x7d]")
      [⟨chars "uuid-a", chars "A", [], [], []⟩] rfl).1,
   (c6_fresh_ids genC (chars "[\x7b\"id\": \"zz\", \"name\": \"A\"\x7d]")
      [⟨chars "uuid-a", chars "A", [], [], []⟩] rfl).2 (chars "zz")
      (fun _ => by unfold genC; decide) ⟨chars "uuid-a", chars "A", [], [], []⟩
      (by simp)⟩

/-- Claim C7: the fallback lookup is a pure function of the category:
an exact match on a known key returns that key's curated list (a
single palette, shorter than 5), any other category returns the fixed
five-entry generic default, and the result is never empty. -/
theorem c7_fallback_lookup (gen : Nat → Str) (category : Str) :
    generate_fallback_palettes gen category ≠ [] ∧
    generate_fallback_palettes gen (chars "Food & Beverage")
      = [warm_appetite gen] ∧
    generate_fallback_palettes gen (chars "Technology")
      = [digital_trust gen] ∧
    (category ≠ chars "Food & Beverage" → category ≠ chars "Technology" →
      generate_fallback_palettes gen category = default_palettes gen ∧
      (generate_fallback_palettes gen category).length = 5) := by
  have htf : chars "Technology" ≠ chars "Food & Beverage" := by decide
  refine ⟨?_, ?_, ?_, ?_⟩
  · by_cases hf : category = chars "Food & Beverage"
    · simp [generate_fallback_palettes, hf]
    · by_cases ht : category = chars "Technology"
      · simp [generate_fallback_palettes, hf, ht, htf]
      · simp [generate_fallback_palettes, hf, ht, default_palettes]
  · simp [generate_fallback_palettes]
  · simp [generate_fallback_palettes, htf]
  · intro h1 h2
    simp [generate_fallback_palettes, h1, h2, default_palettes]

/-- Witness for C7: an unknown category receives the five-entry
default list. -/
theorem c7_witness :
    generate_fallback_palettes genC (chars "Nonexistent Category")
      = default_palettes genC ∧
    (generate_fallback_palettes genC (chars "Nonexistent Category")).length
      = 5 :=
  (c7_fallback_lookup genC (chars "Nonexistent Category")).2.2.2
    (by decide) (by decide)

/-- Claim C4: whenever the quota check allows a generation request (and
the provider key is configured), a provider failure, a response without
text, an extraction exception or an empty extraction result all produce
the fallback palettes for the request's business category; and every
successful response reports exactly the remaining count computed by the
quota check of step 1 — the generation unit stays consumed either
way. -/
theorem c4_generate_fallback_quota (gen : Nat → Str) (m : RLMap) (ip : Str)
    (now : Nat) (data : PaletteGenerationRequest) (key : Str)
    (pr : ProviderResult)
    (h : (check_rate_limit m ip (chars "generation") now).1.1 = true) :
    (∀ res, (generate_palettes gen m ip now data (some key) pr).1 = .ok res →
      res.remaining_generations
        = (check_rate_limit m ip (chars "generation") now).1.2) ∧
    ((pr = .raises ∨ pr = .noText ∨
      (∃ s, pr = .text s ∧
        ((∃ e, parse_palette_response gen s = .error e) ∨
         parse_palette_response gen s = .ok []))) →
      (generate_palettes gen m ip now data (some key) pr).1
        = .ok ⟨generate_fallback_palettes gen data.business_category,
               (check_rate_limit m ip (chars "generation") now).1.2⟩) := by
  constructor
  · intro res hres
    cases pr with
    | raises =>
      simp [generate_palettes, h] at hres
      rw [← hres]
    | noText =>
      simp [generate_palettes, h] at hres
      rw [← hres]
    | text s =>
      cases hp : parse_palette_response gen s with
      | error e =>
        simp [generate_palettes, h, hp] at hres
        rw [← hres]
      | ok ps =>
        cases ps with
        | nil =>
          simp [generate_palettes, h, hp] at hres
          rw [← hres]
        | cons p rest =>
          simp [generate_palettes, h, hp] at hres
          rw [← hres]
  · intro hcase
    rcases hcase with rfl | rfl | ⟨s, rfl, hfail⟩
    · simp [generate_palettes, h]
    · simp [generate_palettes, h]
    · rcases hfail with ⟨e, hp⟩ | hp
      · simp [generate_palettes, h, hp]
      · simp [generate_palettes, h, hp]

/-- Witness for C4: the spec's end-to-end scenario — quota at cap 1,
provider call fails — returns the fallback palettes with
`remaining_generations = 0`. -/
theorem c4_witness :
    (generate_palettes genC [] (chars "a") 0 req0 (some (chars "k"))
        .raises).1
      = .ok ⟨generate_fallback_palettes genC req0.business_category, 0⟩ ∧
    (⟨generate_fallback_palettes genC req0.business_category, 0⟩ :
        PaletteGenerationResponse).remaining_generations = 0 :=
  have h : (check_rate_limit [] (chars "a") (chars "generation") 0).1.1
      = true := by decide
  have h2 := (c4_generate_fallback_quota genC [] (chars "a") 0 req0
      (chars "k") .raises h).2 (Or.inl rfl)
  ⟨h2, (c4_generate_fallback_quota genC [] (chars "a") 0 req0
      (chars "k") .raises h).1 _ h2⟩

/-! ## The prompt claim -/

theorem ne_append_of_take (n : Nat) {pa pb a b : Str}
    (h1 : n ≤ pa.length) (h2 : n ≤ pb.length)
    (hne : pa.take n ≠ pb.take n) : pa ++ a ≠ pb ++ b := by
  intro h
  apply hne
  rw [← List.take_append_of_le_length h1,
    ← List.take_append_of_le_length h2, h]

/-- Claim C9: the generation prompt contains a line starting with the
brand-values instruction marker exactly when `brand_values` is
non-empty (and then the whole instruction line
`"- Brand Values: " ++ brand_values` is one of its lines), and likewise
for the competitors instruction; when a field is empty no line carries
the marker — the instruction line is omitted, not interpolated with an
empty value. -/
theorem c9_prompt_optional_lines (data : PaletteGenerationRequest) :
    ((∃ l ∈ promptLines data, chars "- Brand Values: " <+: l) ↔
      data.brand_values ≠ []) ∧
    ((∃ l ∈ promptLines data,
        chars "- Competitors to differentiate from: " <+: l) ↔
      data.competitors ≠ []) ∧
    (data.brand_values ≠ [] →
      (chars "- Brand Values: " ++ data.brand_values) ∈ promptLines data) ∧
    (data.competitors ≠ [] →
      (chars "- Competitors to differentiate from: " ++ data.competitors)
        ∈ promptLines data) := by
  have hm3 : data.brand_values ≠ [] →
      (chars "- Brand Values: " ++ data.brand_values) ∈ promptLines data := by
    intro h
    simp only [promptLines, List.mem_cons]
    refine Or.inr (Or.inr (Or.inr (Or.inr (Or.inr (Or.inr (Or.inl ?_))))))
    rw [if_neg h]
  have hm4 : data.competitors ≠ [] →
      (chars "- Competitors to differentiate from: " ++ data.competitors)
        ∈ promptLines data := by
    intro h
    simp only [promptLines, List.mem_cons]
    refine Or.inr (Or.inr (Or.inr (Or.inr (Or.inr (Or.inr (Or.inr
      (Or.inl ?_)))))))
    rw [if_neg h]
  refine ⟨⟨?_, fun h => ⟨_, hm3 h, ⟨data.brand_values, rfl⟩⟩⟩,
          ⟨?_, fun h => ⟨_, hm4 h, ⟨data.competitors, rfl⟩⟩⟩, hm3, hm4⟩
  · intro hex
    obtain ⟨l, hl, hpre⟩ := hex
    simp only [promptLines, List.mem_cons, List.not_mem_nil, or_false] at hl
    rcases hl with rfl|rfl|rfl|rfl|rfl|rfl|rfl|rfl|rfl|rfl|rfl|rfl|rfl|rfl|rfl|rfl|rfl|rfl|rfl|rfl|rfl|rfl|rfl|rfl|rfl|rfl|rfl|rfl|rfl|rfl
    all_goals
      first
        | exact absurd hpre (by decide)
        | (obtain ⟨t, ht⟩ := hpre
           try simp only [List.append_assoc] at ht
           exact absurd ht
             (ne_append_of_take 5 (by decide) (by decide) (by decide)))
        | (split at hpre <;>
            first
              | exact absurd hpre (by decide)
              | (obtain ⟨t, ht⟩ := hpre
                 try simp only [List.append_assoc] at ht
                 exact absurd ht
                   (ne_append_of_take 5 (by decide) (by decide) (by decide)))
              | assumption)
  · intro hex
    obtain ⟨l, hl, hpre⟩ := hex
    simp only [promptLines, List.mem_cons, List.not_mem_nil, or_false] at hl
    rcases hl with rfl|rfl|rfl|rfl|rfl|rfl|rfl|rfl|rfl|rfl|rfl|rfl|rfl|rfl|rfl|rfl|rfl|rfl|rfl|rfl|rfl|rfl|rfl|rfl|rfl|rfl|rfl|rfl|rfl|rfl
    all_goals
      first
        | exact absurd hpre (by decide)
        | (obtain ⟨t, ht⟩ := hpre
           try simp only [List.append_assoc] at ht
           exact absurd ht
             (ne_append_of_take 5 (by decide) (by decide) (by decide)))
        | (split at hpre <;>
            first
              | exact absurd hpre (by decide)
              | (obtain ⟨t, ht⟩ := hpre
                 try simp only [List.append_assoc] at ht
                 exact absurd ht
                   (ne_append_of_take 5 (by decide) (by decide) (by decide)))
              | assumption)

/-- Witness for C9: a request with brand values set and competitors
empty carries the brand-values instruction line and no competitors
marker. -/
theorem c9_witness :
    (chars "- Brand Values: " ++ chars "bold, modern") ∈ promptLines req9 ∧
    ¬ (∃ l ∈ promptLines req9,
        chars "- Competitors to differentiate from: " <+: l) :=
  ⟨(c9_prompt_optional_lines req9).2.2.1 (by decide),
   fun hex => ((c9_prompt_optional_lines req9).2.1.1 hex) rfl⟩

end ChromaBiz
